import Mathlib

/-!
Shallow embedding of `src/app.py` (a Flask webhook relaying Telegram
messages to a Trello checklist), together with proofs about its webhook
handler, its two HTTP client helpers and its startup configuration check.

Modelling conventions:
* JSON values (the parsed request body, the Trello response body) are the
  inductive `JValue`; Python truthiness is `JValue.truthy`.
* Python exceptions are the error side of `Except PyExc`; an `.error`
  outcome of the handler models an uncaught exception escaping the view
  function (Flask would turn it into a 500 response).
* The outside world (the outcome of each `requests.post`) is a `World`
  oracle: the single board-service post outcome and a stream of
  chat-service post outcomes, indexed by how many chat posts happened
  before in the same request.
* Each helper returns the list of outbound calls it performed next to its
  result, so theorems can speak about which downstream calls occurred and
  in which order.
-/

/-- A JSON value, as Python's `json` module materialises it (numbers are
modelled as integers; the repository never inspects numeric payloads). -/
inductive JValue where
  | null : JValue
  | bool : Bool → JValue
  | num : Int → JValue
  | str : String → JValue
  | arr : List JValue → JValue
  | obj : List (String × JValue) → JValue

/-- Python truthiness of a value: `None`, `False`, `0`, `""`, `[]` and
`{}` are falsy, everything else is truthy. -/
def JValue.truthy : JValue → Bool
  | .null => false
  | .bool b => b
  | .num n => n != 0
  | .str s => s != ""
  | .arr xs => !xs.isEmpty
  | .obj kvs => !kvs.isEmpty

/-- Truthiness of the result of a Python `dict.get`: `None` (absent key)
is falsy, a present value has its own truthiness. -/
def truthyOpt : Option JValue → Bool
  | none => false
  | some v => v.truthy

/-- Key lookup in a JSON object (objects are assumed duplicate-key free,
as `json.loads` collapses duplicates before the program sees them). -/
def jLookup : List (String × JValue) → String → Option JValue
  | [], _ => none
  | (k, v) :: rest, key => if k = key then some v else jLookup rest key

/-- The Python exceptions the embedded code can raise. `httpError` is
`requests.HTTPError` from `raise_for_status`, `network` is a
connection-level error raised by `requests.post` itself, `valueError` is
the JSON decoding error from `resp.json()`. -/
inductive PyExc where
  | keyError : String → PyExc
  | typeError : PyExc
  | attrError : PyExc
  | valueError : PyExc
  | httpError : PyExc
  | network : PyExc
deriving DecidableEq

/-- `d.get(key)` on a Python value: returns `None` for an absent key, and
raises `AttributeError` when the receiver is not a dict. -/
def jvGet : JValue → String → Except PyExc (Option JValue)
  | .obj kvs, key => .ok (jLookup kvs key)
  | _, _ => .error .attrError

/-- `d[key]` on a Python value: raises `KeyError` for an absent key on a
dict, `TypeError` when the receiver is not a dict. -/
def jvIndex : JValue → String → Except PyExc JValue
  | .obj kvs, key =>
    match jLookup kvs key with
    | some v => .ok v
    | none => .error (.keyError key)
  | _, _ => .error .typeError

/-- `str.strip()`: the string with leading and trailing whitespace
removed. -/
def pyStrip (s : String) : String :=
  String.mk (((s.toList.dropWhile Char.isWhitespace).reverse.dropWhile
    Char.isWhitespace).reverse)

/-- Helper for `pyStartsWith`: is the first list a prefix of the second. -/
def strPrefixAux : List Char → List Char → Bool
  | [], _ => true
  | _ :: _, [] => false
  | c :: cs, d :: ds => c == d && strPrefixAux cs ds

/-- `s.startswith(p)` on Python strings. -/
def pyStartsWith (s p : String) : Bool :=
  strPrefixAux p.toList s.toList

/-- Python `repr` of a JSON value (used by `str` on non-string values;
string escaping inside `repr` is not modelled, no claim depends on it). -/
def pyRepr : JValue → String
  | .null => "None"
  | .bool true => "True"
  | .bool false => "False"
  | .num n => toString n
  | .str s => "\x27" ++ s ++ "\x27"
  | .arr xs => "[" ++ String.intercalate ", " (xs.attach.map (fun x => pyRepr x.1)) ++ "]"
  | .obj kvs =>
    "\x7b" ++ String.intercalate ", "
      (kvs.attach.map (fun kv => "\x27" ++ kv.1.1 ++ "\x27: " ++ pyRepr kv.1.2)) ++ "\x7d"
decreasing_by
  · have := List.sizeOf_lt_of_mem x.2
    simp only [JValue.arr.sizeOf_spec]
    omega
  · have h1 := List.sizeOf_lt_of_mem kv.2
    have h2 : sizeOf kv.1.2 < sizeOf kv.1 := by
      obtain ⟨a, b⟩ := kv.1
      simp only [Prod.mk.sizeOf_spec]
      omega
    simp only [JValue.obj.sizeOf_spec]
    omega

/-- Python `str()` of a value, as an f-string interpolation renders it. -/
def pyStr (v : JValue) : String :=
  match v with
  | .str s => s
  | v => pyRepr v

/-- A connection-level failure of `requests.post` (e.g.
`requests.ConnectionError`); such an error is raised by the post call
itself, before any status code exists. -/
inductive NetErr where
  | connError : NetErr
deriving DecidableEq

/-- The outcome of a completed HTTP request to the board service: a
status code and the JSON decode of the response body (`none` when the
body is not valid JSON, so `resp.json()` raises). -/
structure HttpResp where
  status : Nat
  jsonBody : Option JValue

/-- The external world one request runs against: the outcome of the
single board-service `requests.post` (if it happens) and the outcome of
the n-th chat-service `requests.post` of the request (status code only:
the handler never reads a chat response body). -/
structure World where
  boardPost : Except NetErr HttpResp
  chatPost : Nat → Except NetErr Nat

/-- One outbound downstream call: a board-service checklist-item creation
carrying the item text, or a chat-service message send carrying the
target chat id and the message text. -/
inductive Call where
  | board : String → Call
  | chat : JValue → String → Call

/-- The webhook's HTTP reply: status code and JSON body. -/
structure Reply where
  status : Nat
  body : JValue

/-- What one handled request produced: the downstream calls in order, and
either a reply or an uncaught Python exception. -/
structure RunResult where
  calls : List Call
  outcome : Except PyExc Reply

/-- `resp.raise_for_status()` raises exactly for 4xx and 5xx codes. -/
def raisesForStatus (s : Nat) : Bool :=
  400 ≤ s && s < 600

/-- Lines 28-45 of `src/app.py`: `add_checkitem_to_trello(task_text)`.
Posts to the Trello API; a connection error propagates, a 4xx/5xx status
makes `raise_for_status` raise `HTTPError` (logged and re-raised), an
unparseable response body makes `resp.json()` raise; otherwise the
decoded JSON is returned. The returned list records the outbound call. -/
def add_checkitem_to_trello (task_text : String) (post : Except NetErr HttpResp) :
    List Call × Except PyExc JValue :=
  ([.board task_text],
    match post with
    | .error _ => .error .network
    | .ok resp =>
      if raisesForStatus resp.status then .error .httpError
      else
        match resp.jsonBody with
        | some j => .ok j
        | none => .error .valueError)

/-- Lines 48-59 of `src/app.py`: `send_telegram_message(chat_id, text)`.
Posts to the Telegram API; `raise_for_status` is wrapped in
`try/except requests.HTTPError`, so a bad status code is logged and
swallowed, but a connection error raised by `requests.post` itself is
not caught and propagates. The returned list records the outbound call. -/
def send_telegram_message (chat_id : JValue) (text : String)
    (post : Except NetErr Nat) : List Call × Except PyExc Unit :=
  ([.chat chat_id text],
    match post with
    | .error _ => .error .network
    | .ok _ => .ok ())

/-- The canned reply of line 84 of `src/app.py`. -/
def plainTextReply : String := "Please send plain text tasks only for now."

/-- The greeting of line 93 of `src/app.py`. -/
def greetingText : String :=
  "Hey! Send me any message and I\x27ll add it as a checklist item in Trello."

/-- The failure notice of line 108 of `src/app.py`. -/
def oopsText : String := "Oops, I couldn\x27t add that to Trello. Check configuration/logs."

/-- The confirmation message prefix of line 103 of `src/app.py`. -/
def addedPrefix : String := "Added to Trello checklist: "

/-- The body `jsonify({"ok": True})` with status 200. -/
def ackOk : Reply := ⟨200, .obj [("ok", .bool true)]⟩

/-- The body `jsonify({"ok": False, "description": "No update payload"})`
with status 400 (line 73 of `src/app.py`). -/
def noPayloadReply : Reply :=
  ⟨400, .obj [("ok", .bool false), ("description", .str "No update payload")]⟩

/-- Line 75 of `src/app.py`:
`message = update.get("message") or update.get("edited_message")`.
`or` returns its left operand when truthy, otherwise its right operand. -/
def selectMessage (update : JValue) : Except PyExc (Option JValue) :=
  match jvGet update "message" with
  | .error e => .error e
  | .ok (some v) => if v.truthy then .ok (some v) else jvGet update "edited_message"
  | .ok none => jvGet update "edited_message"

/-- Send one chat message and acknowledge (the pattern of lines 84-85 and
91-95 of `src/app.py`): an exception from the send propagates. -/
def sendAndAck (chat_id : JValue) (text : String) (w : World) : RunResult :=
  let s := send_telegram_message chat_id text (w.chatPost 0)
  match s.2 with
  | .ok _ => ⟨s.1, .ok ackOk⟩
  | .error e => ⟨s.1, .error e⟩

/-- Lines 97-111 of `src/app.py`: the `try/except` around the board-service
call. On a decoded dict response, `item_name = trello_response.get("name",
task_text)` and the confirmation is sent; `except Exception` also catches
an `AttributeError` from `.get` on a non-dict response and an exception
from the confirmation send, and then sends the failure notice; an
exception from the failure-notice send itself is uncaught. -/
def handleTask (chat_id : JValue) (task_text : String) (w : World) : RunResult :=
  let board := add_checkitem_to_trello task_text w.boardPost
  match board.2 with
  | .ok trello =>
    match trello with
    | .obj kvs =>
      let item_name := (jLookup kvs "name").getD (.str task_text)
      let confirm := addedPrefix ++ pyStr item_name
      let s1 := send_telegram_message chat_id confirm (w.chatPost 0)
      match s1.2 with
      | .ok _ => ⟨board.1 ++ s1.1, .ok ackOk⟩
      | .error _ =>
        let s2 := send_telegram_message chat_id oopsText (w.chatPost 1)
        match s2.2 with
        | .ok _ => ⟨board.1 ++ s1.1 ++ s2.1, .ok ackOk⟩
        | .error e => ⟨board.1 ++ s1.1 ++ s2.1, .error e⟩
    | _ =>
      let s1 := send_telegram_message chat_id oopsText (w.chatPost 0)
      match s1.2 with
      | .ok _ => ⟨board.1 ++ s1.1, .ok ackOk⟩
      | .error e => ⟨board.1 ++ s1.1, .error e⟩
  | .error _ =>
    let s1 := send_telegram_message chat_id oopsText (w.chatPost 0)
    match s1.2 with
    | .ok _ => ⟨board.1 ++ s1.1, .ok ackOk⟩
    | .error e => ⟨board.1 ++ s1.1, .error e⟩

/-- Lines 80-111 of `src/app.py`: handling of a truthy selected message.
`chat_id = message["chat"]["id"]` can raise `KeyError`/`TypeError`; a
falsy `text` (absent, empty string, or another falsy value) gets the
plain-text canned reply; a truthy non-string `text` makes `text.strip()`
raise `AttributeError`; a stripped text starting with `/start` gets the
greeting; anything else becomes a task. -/
def handleMessage (message : JValue) (w : World) : RunResult :=
  match jvIndex message "chat" with
  | .error e => ⟨[], .error e⟩
  | .ok chat =>
    match jvIndex chat "id" with
    | .error e => ⟨[], .error e⟩
    | .ok chat_id =>
      match jvGet message "text" with
      | .error e => ⟨[], .error e⟩
      | .ok textOpt =>
        if truthyOpt textOpt then
          match textOpt with
          | some (.str s) =>
            let text := pyStrip s
            if pyStartsWith text "/start" then sendAndAck chat_id greetingText w
            else handleTask chat_id text w
          | _ => ⟨[], .error .attrError⟩
        else sendAndAck chat_id plainTextReply w

/-- Lines 69-111 of `src/app.py`: the POST branch of `telegram_webhook`.
The body argument is the result of `request.get_json(force=True,
silent=True)`: `none` when the body could not be parsed (or was JSON
`null`). `if not update` rejects a falsy parsed body with the 400 reply;
a falsy selected message means the update is ignored with `ok: true`. -/
def telegram_webhook_post (body : Option JValue) (w : World) : RunResult :=
  match body with
  | none => ⟨[], .ok noPayloadReply⟩
  | some update =>
    if update.truthy then
      match selectMessage update with
      | .error e => ⟨[], .error e⟩
      | .ok none => ⟨[], .ok ackOk⟩
      | .ok (some m) =>
        if m.truthy then handleMessage m w else ⟨[], .ok ackOk⟩
    else ⟨[], .ok noPayloadReply⟩

/-- Python truthiness of `os.environ.get(name)`: `None` (unset variable)
and the empty string are falsy. -/
def pyTruthyStr : Option String → Bool
  | none => false
  | some s => s != ""

/-- Lines 9-15 of `src/app.py`: the startup configuration check. The four
environment variables are read with `os.environ.get`; `if not all([...])`
raises `RuntimeError`, so the process refuses to start. -/
def startupCheck (bot key token checklist : Option String) : Except String Unit :=
  if pyTruthyStr bot && pyTruthyStr key && pyTruthyStr token && pyTruthyStr checklist
  then .ok ()
  else .error "Missing one or more required environment variables"

/-- A world where every outbound post completes: the board post returns
status 200 with an empty JSON object body, every chat post returns 200. -/
def wBoardOk : World := ⟨.ok ⟨200, some (.obj [])⟩, fun _ => .ok 200⟩

/-- A world where the board post returns status 200 with body
`{"name": "buy milk"}` and every chat post returns 200 (Scenario A). -/
def wScenarioA : World :=
  ⟨.ok ⟨200, some (.obj [("name", .str "buy milk")])⟩, fun _ => .ok 200⟩

/-- A world where the board post raises a connection error and every chat
post returns 200 (Scenario D). -/
def wBoardDown : World := ⟨.error .connError, fun _ => .ok 200⟩

/-- The Scenario A update `{"message":{"chat":{"id":42},"text":"buy milk"}}`. -/
def updScenarioA : JValue :=
  .obj [("message", .obj [("chat", .obj [("id", .num 42)]), ("text", .str "buy milk")])]

/-- An update whose message text is a single space (whitespace-only). -/
def updWhitespace : JValue :=
  .obj [("message", .obj [("chat", .obj [("id", .num 42)]), ("text", .str " ")])]

/-- The Scenario B update `{"message":{"chat":{"id":42},"text":"/start"}}`. -/
def updStart : JValue :=
  .obj [("message", .obj [("chat", .obj [("id", .num 42)]), ("text", .str "/start")])]

/-- An update whose message has a chat id but no text field. -/
def updNoText : JValue :=
  .obj [("message", .obj [("chat", .obj [("id", .num 42)])])]

/-- An update whose message has a chat id and an empty-string text. -/
def updEmptyText : JValue :=
  .obj [("message", .obj [("chat", .obj [("id", .num 42)]), ("text", .str "")])]

/-- An update whose message is truthy but has no chat object. -/
def updNoChat : JValue :=
  .obj [("message", .obj [("text", .str "hi")])]

/-- An update whose message is the empty (falsy) object. -/
def updEmptyMessage : JValue := .obj [("message", .obj [])]

/-! ## Helper lemmas -/

/-- A successful lookup means the object is non-empty, hence truthy. -/
theorem truthy_obj_of_lookup {kvs : List (String × JValue)} {key : String}
    {v : JValue} (h : jLookup kvs key = some v) : (JValue.obj kvs).truthy = true := by
  cases kvs with
  | nil => simp [jLookup] at h
  | cons a l => rfl

/-- The board-service client always records exactly its one outbound call. -/
theorem add_checkitem_calls (t : String) (p : Except NetErr HttpResp) :
    (add_checkitem_to_trello t p).1 = [.board t] := rfl

/-- Reduction of the `or`-selection when the `message` field holds a
truthy object. -/
theorem selectMessage_obj_message {ukvs mkvs : List (String × JValue)}
    (hmsg : jLookup ukvs "message" = some (.obj mkvs))
    (hm : (JValue.obj mkvs).truthy = true) :
    selectMessage (.obj ukvs) = .ok (some (.obj mkvs)) := by
  simp [selectMessage, jvGet, hmsg, hm]

/-- The POST handler drops into `handleMessage` when the update carries a
truthy `message` object. -/
theorem webhook_to_handleMessage {ukvs mkvs : List (String × JValue)} {w : World}
    (hmsg : jLookup ukvs "message" = some (.obj mkvs))
    (hm : (JValue.obj mkvs).truthy = true) :
    telegram_webhook_post (some (.obj ukvs)) w = handleMessage (.obj mkvs) w := by
  have hu : (JValue.obj ukvs).truthy = true := truthy_obj_of_lookup hmsg
  simp [telegram_webhook_post, hu, selectMessage_obj_message hmsg hm, hm]

/-- A message with a chat id and a truthy string text reaches the
command/task dispatch on the stripped text. -/
theorem handleMessage_task {mkvs ckvs : List (String × JValue)} {cid : JValue}
    {t : String} {w : World}
    (hchat : jLookup mkvs "chat" = some (.obj ckvs))
    (hid : jLookup ckvs "id" = some cid)
    (htext : jLookup mkvs "text" = some (.str t))
    (ht : t ≠ "") :
    handleMessage (.obj mkvs) w =
      if pyStartsWith (pyStrip t) "/start" then sendAndAck cid greetingText w
      else handleTask cid (pyStrip t) w := by
  simp [handleMessage, jvIndex, jvGet, hchat, hid, htext, truthyOpt, JValue.truthy, ht]

/-- A message with a chat id and a falsy (absent, empty, …) text gets the
plain-text canned reply. -/
theorem handleMessage_falsy_text {mkvs ckvs : List (String × JValue)} {cid : JValue}
    {w : World}
    (hchat : jLookup mkvs "chat" = some (.obj ckvs))
    (hid : jLookup ckvs "id" = some cid)
    (htext : truthyOpt (jLookup mkvs "text") = false) :
    handleMessage (.obj mkvs) w = sendAndAck cid plainTextReply w := by
  simp [handleMessage, jvIndex, jvGet, hchat, hid, htext]

/-- A canned-reply send whose chat post completes acknowledges with 200. -/
theorem sendAndAck_ok {cid : JValue} {txt : String} {w : World} {st : Nat}
    (h : w.chatPost 0 = .ok st) :
    sendAndAck cid txt w = ⟨[.chat cid txt], .ok ackOk⟩ := by
  simp [sendAndAck, send_telegram_message, h]

/-- The task path on a decoded JSON-object board response with a
non-raising status: one board call, then one confirmation chat call. -/
theorem handleTask_success {cid : JValue} {t : String} {w : World} {st st2 : Nat}
    {bkvs : List (String × JValue)}
    (hboard : w.boardPost = .ok ⟨st, some (.obj bkvs)⟩)
    (hst : raisesForStatus st = false)
    (hchat : w.chatPost 0 = .ok st2) :
    handleTask cid t w =
      ⟨[.board t, .chat cid (addedPrefix ++ pyStr ((jLookup bkvs "name").getD (.str t)))],
       .ok ackOk⟩ := by
  simp [handleTask, add_checkitem_to_trello, hboard, hst, send_telegram_message, hchat]

/-- The task path when the board-service client raises: one board call,
then one failure-notice chat call. -/
theorem handleTask_board_failure {cid : JValue} {t : String} {w : World}
    {e : PyExc} {st2 : Nat}
    (hfail : (add_checkitem_to_trello t w.boardPost).2 = .error e)
    (hchat : w.chatPost 0 = .ok st2) :
    handleTask cid t w = ⟨[.board t, .chat cid oopsText], .ok ackOk⟩ := by
  simp [handleTask, hfail, add_checkitem_calls, send_telegram_message, hchat]

/-- The first downstream call of the task path is always the board call
carrying the task text, whatever the world does. -/
theorem handleTask_calls_head (c : JValue) (t : String) (w : World) :
    (handleTask c t w).calls.head? = some (.board t) := by
  simp only [handleTask]
  repeat' split
  all_goals rfl

/-- A canned-reply send acknowledges or propagates an exception. -/
theorem sendAndAck_outcome (c : JValue) (t : String) (w : World) :
    (sendAndAck c t w).outcome = .ok ackOk ∨
      ∃ e, (sendAndAck c t w).outcome = .error e := by
  simp only [sendAndAck]
  repeat' split
  · exact Or.inl rfl
  · exact Or.inr ⟨_, rfl⟩

/-- The task path acknowledges or propagates an exception. -/
theorem handleTask_outcome (c : JValue) (t : String) (w : World) :
    (handleTask c t w).outcome = .ok ackOk ∨
      ∃ e, (handleTask c t w).outcome = .error e := by
  simp only [handleTask]
  repeat' split
  all_goals first
    | exact Or.inl rfl
    | exact Or.inr ⟨_, rfl⟩

/-- A truthy selected message is answered with 200 `ok: true` or an
uncaught exception, never with the 400 reply. -/
theorem handleMessage_outcome (m : JValue) (w : World) :
    (handleMessage m w).outcome = .ok ackOk ∨
      ∃ e, (handleMessage m w).outcome = .error e := by
  simp only [handleMessage]
  repeat' split
  all_goals first
    | exact Or.inl rfl
    | exact Or.inr ⟨_, rfl⟩
    | exact sendAndAck_outcome _ _ _
    | exact handleTask_outcome _ _ _

/-- On a truthy parsed body the POST handler acknowledges with `ok: true`
or dies with an uncaught exception. -/
theorem webhook_truthy_outcome (v : JValue) (w : World) (hv : v.truthy = true) :
    (telegram_webhook_post (some v) w).outcome = .ok ackOk ∨
      ∃ e, (telegram_webhook_post (some v) w).outcome = .error e := by
  simp only [telegram_webhook_post]
  rw [if_pos hv]
  repeat' split
  all_goals first
    | exact Or.inl rfl
    | exact Or.inr ⟨_, rfl⟩
    | exact handleMessage_outcome _ _

/-- The two reply bodies differ (status 200 with `ok: true` against
status 400 with `ok: false`). -/
theorem ackOk_ne_noPayload : ackOk ≠ noPayloadReply := by
  intro h
  exact absurd (congrArg Reply.status h) (by decide)

/-- A string strips to the empty string exactly when every one of its
characters is whitespace. -/
theorem pyStrip_eq_empty_iff (t : String) :
    pyStrip t = "" ↔ ∀ c ∈ t.toList, c.isWhitespace = true := by
  have hstep : ∀ l : List Char,
      (∀ a ∈ l.dropWhile Char.isWhitespace, Char.isWhitespace a = true) ↔
      ∀ a ∈ l, Char.isWhitespace a = true := by
    intro l
    constructor
    · intro h a ha
      have hmem : a ∈ l.takeWhile Char.isWhitespace ++ l.dropWhile Char.isWhitespace := by
        rw [List.takeWhile_append_dropWhile]
        exact ha
      rcases List.mem_append.mp hmem with h1 | h2
      · exact List.mem_takeWhile_imp h1
      · exact h a h2
    · intro h a ha
      exact h a ((List.dropWhile_sublist _).subset ha)
  unfold pyStrip
  rw [String.ext_iff]
  show ((t.toList.dropWhile Char.isWhitespace).reverse.dropWhile
      Char.isWhitespace).reverse = [] ↔ _
  rw [List.reverse_eq_nil_iff, List.dropWhile_eq_nil_iff]
  constructor
  · intro h
    refine (hstep _).mp ?_
    intro a ha
    exact h a (List.mem_reverse.mpr ha)
  · intro h a ha
    exact (hstep _).mpr h a (List.mem_reverse.mp ha)

/-! ## Claim theorems -/

/-- Claim C1 (amended). For every POST body that parses to a truthy
(non-empty) JSON object containing neither a `message` nor an
`edited_message` field, the handler responds 200 with `ok: true` and
performs zero downstream calls; the 400 reply with `ok: false` and
description `No update payload` is returned exactly when the body could
not be parsed at all or parsed to a falsy value (such as the empty
object), again with zero downstream calls. -/
theorem c1_ignored_updates_ack_and_400_for_falsy_bodies :
    (∀ w : World, telegram_webhook_post none w = ⟨[], .ok noPayloadReply⟩) ∧
    (∀ (v : JValue) (w : World), v.truthy = false →
      telegram_webhook_post (some v) w = ⟨[], .ok noPayloadReply⟩) ∧
    (∀ (kvs : List (String × JValue)) (w : World), kvs ≠ [] →
      jLookup kvs "message" = none → jLookup kvs "edited_message" = none →
      telegram_webhook_post (some (.obj kvs)) w = ⟨[], .ok ackOk⟩) ∧
    (∀ (body : Option JValue) (w : World),
      (telegram_webhook_post body w).outcome = .ok noPayloadReply →
      body = none ∨ ∃ v, body = some v ∧ v.truthy = false) := by
  refine ⟨fun w => rfl, fun v w hv => ?_, fun kvs w hk h1 h2 => ?_, fun body w h => ?_⟩
  · simp [telegram_webhook_post, hv]
  · have htr : (JValue.obj kvs).truthy = true := by
      cases kvs with
      | nil => exact absurd rfl hk
      | cons a l => rfl
    simp [telegram_webhook_post, htr, selectMessage, jvGet, h1, h2, truthyOpt]
  · match body with
    | none => exact Or.inl rfl
    | some v =>
      cases hv : v.truthy with
      | false => exact Or.inr ⟨v, rfl, hv⟩
      | true =>
        exfalso
        rcases webhook_truthy_outcome v w hv with hout | ⟨e, hout⟩
        · rw [h] at hout
          exact ackOk_ne_noPayload (Except.ok.inj hout).symm
        · rw [h] at hout
          exact Except.noConfusion hout

/-- Claim C1 counterexample. The body `{}` parses successfully as
structured data and contains neither `message` nor `edited_message`, yet
the handler answers with the 400 `No update payload` reply, not with the
200 `ok: true` acknowledgement the claim requires; so 400 is not returned
only for unparseable bodies. -/
theorem c1_cex_parsed_empty_object_gets_400 :
    telegram_webhook_post (some (.obj [])) wBoardOk = ⟨[], .ok noPayloadReply⟩ ∧
    noPayloadReply.status = 400 ∧ ackOk.status = 200 ∧ noPayloadReply ≠ ackOk := by
  refine ⟨rfl, rfl, rfl, fun h => ?_⟩
  exact absurd (congrArg Reply.status h) (by decide)

/-- Claim C2. For an update whose `message` has a chat id and a truthy
string text that does not begin, once stripped, with `/start`, and whose
board post succeeds (status not 4xx/5xx, JSON-object body) and whose chat
post completes, the run performs exactly one board call carrying the
stripped text followed by exactly one chat call carrying
`Added to Trello checklist: ` plus the name the board service reported
(the stripped task text when no `name` field is present), and replies 200
`ok: true`. -/
theorem c2_task_success_flow
    (ukvs mkvs ckvs bkvs : List (String × JValue)) (cid : JValue) (t : String)
    (w : World) (st st2 : Nat)
    (hmsg : jLookup ukvs "message" = some (.obj mkvs))
    (hchat : jLookup mkvs "chat" = some (.obj ckvs))
    (hid : jLookup ckvs "id" = some cid)
    (htext : jLookup mkvs "text" = some (.str t))
    (ht : t ≠ "")
    (hns : pyStartsWith (pyStrip t) "/start" = false)
    (hboard : w.boardPost = .ok ⟨st, some (.obj bkvs)⟩)
    (hst : raisesForStatus st = false)
    (hpost : w.chatPost 0 = .ok st2) :
    telegram_webhook_post (some (.obj ukvs)) w =
      ⟨[.board (pyStrip t),
        .chat cid (addedPrefix ++ pyStr ((jLookup bkvs "name").getD (.str (pyStrip t))))],
       .ok ackOk⟩ := by
  rw [webhook_to_handleMessage hmsg (truthy_obj_of_lookup hchat),
    handleMessage_task hchat hid htext ht, if_neg (by simp [hns]),
    handleTask_success hboard hst hpost]

/-- Claim C2 witness: Scenario A.
`{"message":{"chat":{"id":42},"text":"buy milk"}}` against a board
service that echoes the name `buy milk`. -/
theorem c2_witness_scenario_a :
    telegram_webhook_post (some updScenarioA) wScenarioA =
      ⟨[.board "buy milk", .chat (.num 42) "Added to Trello checklist: buy milk"],
       .ok ackOk⟩ :=
  c2_task_success_flow
    [("message", .obj [("chat", .obj [("id", .num 42)]), ("text", .str "buy milk")])]
    [("chat", .obj [("id", .num 42)]), ("text", .str "buy milk")]
    [("id", .num 42)] [("name", .str "buy milk")] (.num 42) "buy milk" wScenarioA
    200 200 rfl rfl rfl rfl (by decide) (by decide) rfl (by decide) rfl

/-- Claim C3. For an update that reaches the task-creation step, when the
board-service client raises for any reason (connection error, 4xx/5xx
status, or undecodable response body) and the failure-notice chat post
completes, the run performs the board call followed by exactly one chat
call carrying the `Oops` failure notice to the message's chat id, and
still replies 200 `ok: true`. -/
theorem c3_board_failure_flow
    (ukvs mkvs ckvs : List (String × JValue)) (cid : JValue) (t : String)
    (w : World) (e : PyExc) (st2 : Nat)
    (hmsg : jLookup ukvs "message" = some (.obj mkvs))
    (hchat : jLookup mkvs "chat" = some (.obj ckvs))
    (hid : jLookup ckvs "id" = some cid)
    (htext : jLookup mkvs "text" = some (.str t))
    (ht : t ≠ "")
    (hns : pyStartsWith (pyStrip t) "/start" = false)
    (hfail : (add_checkitem_to_trello (pyStrip t) w.boardPost).2 = .error e)
    (hpost : w.chatPost 0 = .ok st2) :
    telegram_webhook_post (some (.obj ukvs)) w =
      ⟨[.board (pyStrip t), .chat cid oopsText], .ok ackOk⟩ := by
  rw [webhook_to_handleMessage hmsg (truthy_obj_of_lookup hchat),
    handleMessage_task hchat hid htext ht, if_neg (by simp [hns]),
    handleTask_board_failure hfail hpost]

/-- Claim C3 witness: Scenario D. The board post raises a connection
error; the chat service receives the failure notice and the webhook still
acknowledges. -/
theorem c3_witness_scenario_d :
    telegram_webhook_post (some updScenarioA) wBoardDown =
      ⟨[.board "buy milk", .chat (.num 42) oopsText], .ok ackOk⟩ :=
  c3_board_failure_flow
    [("message", .obj [("chat", .obj [("id", .num 42)]), ("text", .str "buy milk")])]
    [("chat", .obj [("id", .num 42)]), ("text", .str "buy milk")]
    [("id", .num 42)] (.num 42) "buy milk" wBoardDown .network 200 rfl rfl rfl rfl
    (by decide) (by decide) rfl rfl

/-- Claim C4 (amended). `send_telegram_message` swallows every
non-success HTTP status: whenever the outbound post completes with any
status code at all, no exception reaches the caller. But a
connection-level error raised by the post itself is not caught and
propagates to the caller. -/
theorem c4_status_swallowed_network_propagates :
    (∀ (cid : JValue) (text : String) (st : Nat),
      (send_telegram_message cid text (.ok st)).2 = .ok ()) ∧
    (∀ (cid : JValue) (text : String) (e : NetErr),
      (send_telegram_message cid text (.error e)).2 = .error .network) :=
  ⟨fun _ _ _ => rfl, fun _ _ _ => rfl⟩

/-- Claim C4 counterexample. A connection error of the outbound post (one
of the claim's stated failure modes) makes `send_telegram_message` raise
to its caller instead of returning. -/
theorem c4_cex_connection_error_propagates :
    (send_telegram_message (.num 42) "hi" (.error .connError)).2 = .error .network ∧
    (Except.error .network : Except PyExc Unit) ≠ .ok () := by
  exact ⟨rfl, by simp⟩

/-- Claim C5 (amended). Whenever the handler reaches the task-creation
step, the text it passes to the board-service client is exactly the
stripped message text — which is the empty string precisely when the
message text consists only of whitespace, so the client's stated
non-empty precondition is violated for whitespace-only texts. -/
theorem c5_board_receives_stripped_text
    (ukvs mkvs ckvs : List (String × JValue)) (cid : JValue) (t : String)
    (w : World)
    (hmsg : jLookup ukvs "message" = some (.obj mkvs))
    (hchat : jLookup mkvs "chat" = some (.obj ckvs))
    (hid : jLookup ckvs "id" = some cid)
    (htext : jLookup mkvs "text" = some (.str t))
    (ht : t ≠ "")
    (hns : pyStartsWith (pyStrip t) "/start" = false) :
    (telegram_webhook_post (some (.obj ukvs)) w).calls.head? =
      some (.board (pyStrip t)) ∧
    (pyStrip t = "" ↔ ∀ c ∈ t.toList, c.isWhitespace = true) := by
  constructor
  · rw [webhook_to_handleMessage hmsg (truthy_obj_of_lookup hchat),
      handleMessage_task hchat hid htext ht, if_neg (by simp [hns])]
    exact handleTask_calls_head cid (pyStrip t) w
  · exact pyStrip_eq_empty_iff t

/-- Claim C5 witness: the amended statement at the whitespace-only
message text `" "`. -/
theorem c5_witness_whitespace_text :
    (telegram_webhook_post (some updWhitespace) wBoardOk).calls.head? =
      some (.board (pyStrip " ")) ∧
    (pyStrip " " = "" ↔ ∀ c ∈ " ".toList, c.isWhitespace = true) :=
  c5_board_receives_stripped_text
    [("message", .obj [("chat", .obj [("id", .num 42)]), ("text", .str " ")])]
    [("chat", .obj [("id", .num 42)]), ("text", .str " ")]
    [("id", .num 42)] (.num 42) " " wBoardOk rfl rfl rfl rfl (by decide) (by decide)

/-- Claim C5 counterexample. The update whose message text is the single
space `" "` reaches the board-service client with the empty string as
the item text: the stated non-empty precondition does not hold at this
call site. -/
theorem c5_cex_whitespace_text_reaches_board_empty :
    (telegram_webhook_post (some updWhitespace) wBoardOk).calls =
      [.board "", .chat (.num 42) (addedPrefix ++ "")] := rfl

/-- Claim C6. For an update whose `message` has a chat id and a truthy
string text that begins, once stripped, with `/start`, and whose chat
post completes, zero board calls occur and exactly one chat call carries
the greeting to that chat id, and the webhook replies 200 `ok: true`. -/
theorem c6_start_command_greeting
    (ukvs mkvs ckvs : List (String × JValue)) (cid : JValue) (t : String)
    (w : World) (st2 : Nat)
    (hmsg : jLookup ukvs "message" = some (.obj mkvs))
    (hchat : jLookup mkvs "chat" = some (.obj ckvs))
    (hid : jLookup ckvs "id" = some cid)
    (htext : jLookup mkvs "text" = some (.str t))
    (ht : t ≠ "")
    (hs : pyStartsWith (pyStrip t) "/start" = true)
    (hpost : w.chatPost 0 = .ok st2) :
    telegram_webhook_post (some (.obj ukvs)) w =
      ⟨[.chat cid greetingText], .ok ackOk⟩ := by
  rw [webhook_to_handleMessage hmsg (truthy_obj_of_lookup hchat),
    handleMessage_task hchat hid htext ht, if_pos hs, sendAndAck_ok hpost]

/-- Claim C6 witness: Scenario B,
`{"message":{"chat":{"id":42},"text":"/start"}}`. -/
theorem c6_witness_scenario_b :
    telegram_webhook_post (some updStart) wBoardOk =
      ⟨[.chat (.num 42) greetingText], .ok ackOk⟩ :=
  c6_start_command_greeting
    [("message", .obj [("chat", .obj [("id", .num 42)]), ("text", .str "/start")])]
    [("chat", .obj [("id", .num 42)]), ("text", .str "/start")]
    [("id", .num 42)] (.num 42) "/start" wBoardOk 200 rfl rfl rfl rfl (by decide)
    (by decide) rfl

/-- Claim C7. For an update whose `message` has a chat id but no `text`
field, and whose chat post completes, zero board calls occur and exactly
one chat call carries the plain-text-only notice to that chat id, and
the webhook replies 200 `ok: true`. -/
theorem c7_no_text_plain_reply
    (ukvs mkvs ckvs : List (String × JValue)) (cid : JValue)
    (w : World) (st2 : Nat)
    (hmsg : jLookup ukvs "message" = some (.obj mkvs))
    (hchat : jLookup mkvs "chat" = some (.obj ckvs))
    (hid : jLookup ckvs "id" = some cid)
    (htext : jLookup mkvs "text" = none)
    (hpost : w.chatPost 0 = .ok st2) :
    telegram_webhook_post (some (.obj ukvs)) w =
      ⟨[.chat cid plainTextReply], .ok ackOk⟩ := by
  rw [webhook_to_handleMessage hmsg (truthy_obj_of_lookup hchat),
    handleMessage_falsy_text hchat hid (by rw [htext]; rfl), sendAndAck_ok hpost]

/-- Claim C7 witness: a message with a chat id and no text field. -/
theorem c7_witness_no_text :
    telegram_webhook_post (some updNoText) wBoardOk =
      ⟨[.chat (.num 42) plainTextReply], .ok ackOk⟩ :=
  c7_no_text_plain_reply
    [("message", .obj [("chat", .obj [("id", .num 42)])])]
    [("chat", .obj [("id", .num 42)])]
    [("id", .num 42)] (.num 42) wBoardOk 200 rfl rfl rfl rfl rfl

/-- Claim C8. The process startup check succeeds exactly when all four
configuration values are present and non-empty; a missing (`none`) or
empty (`some ""`) value — and only such a value — aborts startup with
the fatal configuration error. -/
theorem c8_startup_iff_all_config_present
    (bot key token checklist : Option String) :
    startupCheck bot key token checklist = .ok () ↔
      (bot ≠ none ∧ bot ≠ some "" ∧ key ≠ none ∧ key ≠ some "" ∧
       token ≠ none ∧ token ≠ some "" ∧ checklist ≠ none ∧ checklist ≠ some "") := by
  have hp : ∀ v : Option String, pyTruthyStr v = true ↔ (v ≠ none ∧ v ≠ some "") := by
    intro v
    cases v with
    | none => simp [pyTruthyStr]
    | some s => simp [pyTruthyStr]
  have hok : startupCheck bot key token checklist = .ok () ↔
      (pyTruthyStr bot && pyTruthyStr key && pyTruthyStr token &&
        pyTruthyStr checklist) = true := by
    unfold startupCheck
    split
    · simp_all
    · simp_all
  rw [hok]
  simp only [Bool.and_eq_true, hp]
  tauto

/-- Claim C9 (amended). Whenever the handler selects a truthy `message`
(or `edited_message`) object and that object lacks a `chat` field, or its
`chat` object lacks an `id` field, the handler raises an uncaught
exception (a `KeyError`) with zero downstream calls instead of returning
an acknowledgement. -/
theorem c9_selected_message_without_chat_id_raises
    (update : JValue) (mkvs : List (String × JValue)) (w : World)
    (hu : update.truthy = true)
    (hsel : selectMessage update = .ok (some (.obj mkvs)))
    (htr : (JValue.obj mkvs).truthy = true)
    (hbad : jLookup mkvs "chat" = none ∨
      ∃ ckvs, jLookup mkvs "chat" = some (.obj ckvs) ∧ jLookup ckvs "id" = none) :
    ∃ e, telegram_webhook_post (some update) w = ⟨[], .error e⟩ := by
  rcases hbad with hnone | ⟨ckvs, hc, hid⟩
  · exact ⟨.keyError "chat",
      by simp [telegram_webhook_post, hu, hsel, htr, handleMessage, jvIndex, hnone]⟩
  · exact ⟨.keyError "id",
      by simp [telegram_webhook_post, hu, hsel, htr, handleMessage, jvIndex, hc, hid]⟩

/-- Claim C9 witness: the amended statement at the message
`{"text":"hi"}` (truthy, no chat object): the handler dies with a
`KeyError` and makes no downstream call. -/
theorem c9_witness_message_without_chat :
    ∃ e, telegram_webhook_post (some updNoChat) wBoardOk = ⟨[], .error e⟩ :=
  c9_selected_message_without_chat_id_raises updNoChat [("text", .str "hi")]
    wBoardOk rfl rfl rfl (Or.inl rfl)

/-- Claim C9 counterexample. The parsed update `{"message": {}}` contains
a `message` object lacking a `chat` object, yet the handler does not
raise: the empty message object is falsy, so the update is ignored and
acknowledged with 200 `ok: true`. -/
theorem c9_cex_empty_message_is_acknowledged :
    telegram_webhook_post (some updEmptyMessage) wBoardOk = ⟨[], .ok ackOk⟩ := rfl

/-- Claim C10. For an update whose `message` has a chat id and a `text`
field equal to the empty string, and whose chat post completes, the
handler behaves exactly as for an absent text field: one chat call with
the plain-text-only notice, zero board calls, reply 200 `ok: true`. -/
theorem c10_empty_text_same_as_absent
    (ukvs mkvs ckvs : List (String × JValue)) (cid : JValue)
    (w : World) (st2 : Nat)
    (hmsg : jLookup ukvs "message" = some (.obj mkvs))
    (hchat : jLookup mkvs "chat" = some (.obj ckvs))
    (hid : jLookup ckvs "id" = some cid)
    (htext : jLookup mkvs "text" = some (.str ""))
    (hpost : w.chatPost 0 = .ok st2) :
    telegram_webhook_post (some (.obj ukvs)) w =
      ⟨[.chat cid plainTextReply], .ok ackOk⟩ := by
  rw [webhook_to_handleMessage hmsg (truthy_obj_of_lookup hchat),
    handleMessage_falsy_text hchat hid (by rw [htext]; rfl), sendAndAck_ok hpost]

/-- Claim C10 witness: a message with chat id 42 and text `""`. -/
theorem c10_witness_empty_text :
    telegram_webhook_post (some updEmptyText) wBoardOk =
      ⟨[.chat (.num 42) plainTextReply], .ok ackOk⟩ :=
  c10_empty_text_same_as_absent
    [("message", .obj [("chat", .obj [("id", .num 42)]), ("text", .str "")])]
    [("chat", .obj [("id", .num 42)]), ("text", .str "")]
    [("id", .num 42)] (.num 42) wBoardOk 200 rfl rfl rfl rfl rfl
